import Mathlib

/-!
# Verification of the asuka ingestion core

Shallow embedding of the ingestion pipeline of the `asuka` repository:

* `clients/github.rs` — the incremental GitHub activity fetcher
  (`fetch_org_repos`, `fetch_repo_pulls`, `fetch_repo_issues`,
  `fetch_repo_commits`, `fetch_org_activity`);
* `loaders/mod.rs` — the multi-source dispatcher (`load_sources`);
* `loaders/site.rs` — the site content extractor (`extract_content`
  and its mechanical markup-stripping pipeline);
* `knowledge/models.rs` — the persisted-record schema contract
  (schemas, `column_values`, and the `TryFrom<&Row>` decoders for
  `Document`, `Message`, `Channel`).

Modelling conventions:

* Timestamps (`chrono::DateTime<Utc>`) are integers (seconds); the
  textual rendering of a timestamp is abstracted by `showTime`.
  `DateTime::default()` (the Unix epoch) is modelled as `0`.
* Network responses are inputs: each remote endpoint is a field of a
  `World` (for GitHub) or a function argument (for the dispatcher and
  the site extractor), returning `Except String` the way the Rust
  functions return `Result`.  `anyhow::Context` is modelled by
  prefixing the operation name to the error message.
* A Rust panic (`unwrap` on `None`) is modelled as an `Except.error`:
  it produces no successful result.
* Filesystem effects of the site extractor are modelled by explicit
  state passing over `FsState`; `fs::create_dir_all` and `fs::write`
  are modelled as always succeeding.
-/

/-! ## String utilities (Rust `splitn` / `split_once` / `find` / slicing) -/

/-- Split a character list at the first occurrence of `c`; `none` when `c`
does not occur.  Models Rust `str::split_once` / `splitn(2, c)`. -/
def splitCharAux (c : Char) : List Char → Option (List Char × List Char)
  | [] => none
  | a :: rest =>
    if a = c then some ([], rest)
    else
      match splitCharAux c rest with
      | none => none
      | some (l, r) => some (a :: l, r)

/-- `splitOnceChar c s` models Rust `s.split_once(c)` (and `splitn(2, c)`
when both parts exist): split at the first occurrence of `c`. -/
def splitOnceChar (c : Char) (s : String) : Option (String × String) :=
  match splitCharAux c s.data with
  | none => none
  | some (l, r) => some (⟨l⟩, ⟨r⟩)

/-- `listStarts pat l` : `pat` is an initial segment of `l`. -/
def listStarts : List Char → List Char → Bool
  | [], _ => true
  | _ :: _, [] => false
  | p :: ps, c :: cs => p = c && listStarts ps cs

/-- Index of the first occurrence of `needle` as a sub-list; models Rust
`str::find(needle)`. -/
def findSubIdx (needle : List Char) : List Char → Option Nat
  | [] => if needle.isEmpty then some 0 else none
  | c :: rest =>
    if listStarts needle (c :: rest) then some 0
    else (findSubIdx needle rest).map (· + 1)

theorem data_append (a b : String) : (a ++ b).data = a.data ++ b.data := rfl

/-! ## The `Document` record and GitHub payloads (`clients/github.rs`) -/

/-- `octocrab::models::Repository`, restricted to the fields the client
reads. -/
structure RepoData where
  name : String
  full_name : Option String
  description : Option String
  html_url : Option String
  created_at : Option Int
  updated_at : Option Int
deriving DecidableEq, Repr

/-- An octocrab pull request, restricted to the fields the client reads.
`state` is `Option String` (the `format!("{:?}", s)` rendering is
abstracted to the string itself). -/
structure PullData where
  number : Nat
  title : Option String
  user_login : Option String
  state : Option String
  html_url : Option String
  created_at : Option Int
  updated_at : Option Int
  body : Option String
deriving DecidableEq, Repr

/-- An octocrab issue, restricted to the fields the client reads.  In
octocrab `updated_at` and `created_at` are not optional for issues;
`pull_request` is the pull-request linkage marker. -/
structure IssueData where
  number : Nat
  title : String
  user_login : String
  state : String
  html_url : String
  created_at : Int
  updated_at : Int
  body : Option String
  pull_request : Option Unit
deriving DecidableEq, Repr

/-- An octocrab commit, restricted to the fields the client reads. -/
structure CommitData where
  sha : String
  author_login : Option String
  commit_author_name : Option String
  commit_author_date : Option Int
  html_url : String
  message : String
deriving DecidableEq, Repr

/-- The opaque `serde_json::Value` stored in `Document.metadata`:
either the verbatim provider payload (`json!(repo)` …) or the
dispatcher's `DocumentMetadata` (`source_type` + `source_url`). -/
inductive Metadata where
  | repo (r : RepoData)
  | pull (p : PullData)
  | issue (i : IssueData)
  | commit (c : CommitData)
  | dispatch (source_type : String) (source_url : String)
deriving DecidableEq, Repr

/-- `serde_json::from_value::<models::Repository>`: succeeds exactly on a
repository payload. -/
def fromValueRepo : Metadata → Option RepoData
  | .repo r => some r
  | _ => none

/-- `knowledge/models.rs`: the unit of ingestion. -/
structure Document where
  id : String
  source_id : String
  content : String
  created_at : Option Int
  metadata : Option Metadata
deriving DecidableEq, Repr

/-- Rendering of a timestamp (abstracts the chrono `Display`). -/
def showTime (t : Int) : String := toString t

/-- `ts.unwrap_or_default()` rendered: `DateTime::default()` is `0`. -/
def showOptTime (t : Option Int) : String := showTime (t.getD 0)

/-- The provider responses a GitHub sync run observes, each fallible the
way the corresponding `octocrab` call is. -/
structure World where
  repos : Except String (List RepoData)
  pulls : String → String → Except String (List PullData)
  issues : String → String → Except String (List IssueData)
  commits : String → String → Int → Except String (List CommitData)

/-- The repository document built by `fetch_org_repos` (github.rs 34-57). -/
def mkRepoDoc (org : String) (r : RepoData) : Document :=
  let repo_name := r.full_name.getD r.name
  let html_url := r.html_url.getD ""
  { id := "github:repo:" ++ repo_name
    source_id := "github:" ++ org
    content := "Repository: " ++ repo_name
      ++ "\nDescription: " ++ r.description.getD "No description"
      ++ "\nURL: " ++ html_url
      ++ "\nCreated: " ++ showOptTime r.created_at
      ++ "\nLast Updated: " ++ showOptTime r.updated_at
    created_at := r.created_at
    metadata := some (.repo r) }

/-- `fetch_org_repos` (github.rs 23-61): list the organization's
repositories and normalize each to a record. -/
def fetch_org_repos (org : String) (w : World) : Except String (List Document) :=
  match w.repos with
  | .error e => .error ("Failed to fetch organization repositories: " ++ e)
  | .ok repos => .ok (repos.map (mkRepoDoc org))

/-- The client-side watermark filter of `fetch_repo_pulls` (github.rs 81):
`pr.updated_at.map(|d| d >= since).unwrap_or(false)`. -/
def pullKeep (since : Int) (p : PullData) : Bool :=
  match p.updated_at with
  | some d => since ≤ d
  | none => false

/-- The pull-request document built by `fetch_repo_pulls` (github.rs 85-104). -/
def mkPullDoc (owner repo : String) (p : PullData) : Document :=
  { id := "github:pr:" ++ owner ++ ":" ++ repo ++ "/" ++ toString p.number
    source_id := "github:" ++ owner ++ "/" ++ repo
    content := "Pull Request: #" ++ toString p.number ++ " - " ++ p.title.getD ""
      ++ "\nAuthor: @" ++ p.user_login.getD ""
      ++ "\nState: " ++ p.state.getD "unknown"
      ++ "\nURL: " ++ p.html_url.getD ""
      ++ "\nCreated: " ++ showOptTime p.created_at
      ++ "\nLast Updated: " ++ showOptTime p.updated_at
      ++ "\n\n" ++ p.body.getD ""
    created_at := p.created_at
    metadata := some (.pull p) }

/-- `fetch_repo_pulls` (github.rs 63-108): provider response, re-filtered
client-side by the watermark, then normalized. -/
def fetch_repo_pulls (owner repo : String) (since : Int)
    (resp : Except String (List PullData)) : Except String (List Document) :=
  match resp with
  | .error e => .error ("Failed to fetch pull requests: " ++ e)
  | .ok items => .ok ((items.filter (pullKeep since)).map (mkPullDoc owner repo))

/-- The filter of `fetch_repo_issues` (github.rs 128):
`issue.updated_at >= since && issue.pull_request.is_none()`. -/
def issueKeep (since : Int) (i : IssueData) : Bool :=
  since ≤ i.updated_at && i.pull_request.isNone

/-- The issue document built by `fetch_repo_issues` (github.rs 131-151). -/
def mkIssueDoc (owner repo : String) (i : IssueData) : Document :=
  { id := "github:issue:" ++ owner ++ ":" ++ repo ++ "/" ++ toString i.number
    source_id := "github:" ++ owner ++ "/" ++ repo
    content := "Issue: #" ++ toString i.number ++ " - " ++ i.title
      ++ "\nAuthor: @" ++ i.user_login
      ++ "\nState: " ++ i.state
      ++ "\nURL: " ++ i.html_url
      ++ "\nCreated: " ++ showTime i.created_at
      ++ "\nLast Updated: " ++ showTime i.updated_at
      ++ "\n\n" ++ i.body.getD ""
    created_at := some i.created_at
    metadata := some (.issue i) }

/-- `fetch_repo_issues` (github.rs 110-155): watermark filter plus
exclusion of entities carrying a pull-request linkage marker. -/
def fetch_repo_issues (owner repo : String) (since : Int)
    (resp : Except String (List IssueData)) : Except String (List Document) :=
  match resp with
  | .error e => .error ("Failed to fetch issues: " ++ e)
  | .ok items => .ok ((items.filter (issueKeep since)).map (mkIssueDoc owner repo))

/-- The commit document built by `fetch_repo_commits` (github.rs 173-205). -/
def mkCommitDoc (owner repo : String) (c : CommitData) : Document :=
  let author_name :=
    match c.author_login with
    | some l => "@" ++ l
    | none => c.commit_author_name.getD ""
  { id := "github:commit:" ++ owner ++ ":" ++ repo ++ "/" ++ c.sha
    source_id := "github:" ++ owner ++ "/" ++ repo
    content := "Commit: " ++ c.sha
      ++ "\nAuthor: " ++ author_name
      ++ "\nDate: " ++ showOptTime c.commit_author_date
      ++ "\nURL: " ++ c.html_url
      ++ "\n\n" ++ c.message
    created_at := c.commit_author_date
    metadata := some (.commit c) }

/-- `fetch_repo_commits` (github.rs 157-209): provider-side `since`
filtering is trusted, no client-side re-filter. -/
def fetch_repo_commits (owner repo : String)
    (resp : Except String (List CommitData)) : Except String (List Document) :=
  match resp with
  | .error e => .error ("Failed to fetch commits: " ++ e)
  | .ok items => .ok (items.map (mkCommitDoc owner repo))

/-- The resolved qualified name of a repository
(`repo.full_name.as_deref().unwrap_or(&repo.name)`). -/
def repoName (r : RepoData) : String := r.full_name.getD r.name

/-- The per-repository body of the `fetch_org_activity` loop
(github.rs 220-236).  The `split_once('/').unwrap()` aborts the whole
run on a name without a slash; the panic is modelled as an error. -/
def orgActivityStep (w : World) (since : Int) (doc : Document) :
    Except String (List Document) :=
  match doc.metadata with
  | some m =>
    match fromValueRepo m with
    | some robj =>
      match splitOnceChar '/' (repoName robj) with
      | none => .error "panicked: called unwrap on a None value (repository name has no slash)"
      | some (owner, name) =>
        match fetch_repo_pulls owner name since (w.pulls owner name) with
        | .error e => .error e
        | .ok pulls =>
          match fetch_repo_issues owner name since (w.issues owner name) with
          | .error e => .error e
          | .ok issues =>
            match fetch_repo_commits owner name (w.commits owner name since) with
            | .error e => .error e
            | .ok commits => .ok (pulls ++ issues ++ commits)
    | none => .ok []
  | none => .ok []

/-- The `for repo in repos` loop of `fetch_org_activity`, accumulating
per-repository records in listing order. -/
def orgActivityLoop (w : World) (since : Int) :
    List Document → Except String (List Document)
  | [] => .ok []
  | d :: rest =>
    match orgActivityStep w since d with
    | .error e => .error e
    | .ok xs =>
      match orgActivityLoop w since rest with
      | .error e => .error e
      | .ok ys => .ok (xs ++ ys)

/-- `fetch_org_activity` (github.rs 211-239): repository records first,
then pulls/issues/commits per repository in listing order. -/
def fetch_org_activity (org : String) (since : Int) (w : World) :
    Except String (List Document) :=
  match fetch_org_repos org w with
  | .error e => .error e
  | .ok repos =>
    match orgActivityLoop w since repos with
    | .error e => .error e
    | .ok more => .ok (repos ++ more)

/-- `Except.isOk`, local helper. -/
def exceptOk : Except String (List Document) → Bool
  | .ok _ => true
  | .error _ => false

/-! ## The multi-source dispatcher (`loaders/mod.rs`) -/

/-- The per-type fetchers the dispatcher routes to.  `github` models
`loaders/github.rs` (`GitLoader::new` + `with_root` + `read_with_path`,
a git clone read as (path, content) pairs — that file is not under
src/, so it is kept opaque); `site` models `SiteLoader::new` followed
by `extract_content`; `file` models rig's `FileLoader::with_glob` +
`read_with_path`.  Each collapses its fallible chain into one
`Except`, matching the `?` propagation in `load_sources`. -/
structure Fetchers where
  github : String → Except String (List (String × String))
  site : String → Except String String
  file : String → Except String (List (String × String))

/-- The document built by one recognized branch of `load_sources`
(mod.rs 85-139), given the already-fetched payload. -/
def fetchOne (f : Fetchers) (ty url : String) : Except String (List Document) :=
  if ty = "github" then
    match f.github url with
    | .error e => .error e
    | .ok pcs => .ok (pcs.map (fun pc =>
        { id := pc.1, source_id := "github:" ++ url, content := pc.2,
          created_at := none, metadata := some (.dispatch "github" url) }))
  else if ty = "site" then
    match f.site url with
    | .error e => .error e
    | .ok content => .ok
        [{ id := url, source_id := "site:" ++ url, content := content,
           created_at := none, metadata := some (.dispatch "site" url) }]
  else if ty = "file" then
    match f.file url with
    | .error e => .error e
    | .ok pcs => .ok (pcs.map (fun pc =>
        { id := pc.1, source_id := "file:" ++ url, content := pc.2,
          created_at := none, metadata := some (.dispatch "file" url) }))
  else .ok []

/-- The closed set of recognized descriptor types (the `pdf` arm is
behind a disabled cargo feature and is omitted). -/
def knownType (ty : String) : Bool :=
  ty = "github" || ty = "site" || ty = "file"

/-- `MultiLoader::load_sources` (mod.rs 59-143): split each descriptor at
the first colon, skip descriptors without a colon and descriptors of
unrecognized type (`continue`), dispatch the rest, concatenate results
in input order; the first fetcher error aborts the whole batch (`?`),
discarding everything accumulated so far. -/
def load_sources (f : Fetchers) : List String → Except String (List Document)
  | [] => .ok []
  | s :: rest =>
    match splitOnceChar ':' s with
    | none => load_sources f rest
    | some (ty, url) =>
      if knownType ty then
        match fetchOne f ty url with
        | .error e => .error e
        | .ok docs =>
          match load_sources f rest with
          | .error e => .error e
          | .ok ds => .ok (docs ++ ds)
      else load_sources f rest

/-! ## The site content extractor (`loaders/site.rs`)

The three `regex` calls of `extract_content` are embedded as character
scanners implementing the leftmost, non-overlapping `replace_all`
semantics of the concrete patterns used:

* `<script[^>]*>[\s\S]*?</script>` and `<style[^>]*>[\s\S]*?</style>`
  (replaced by the empty string): at a position where the literal open
  tag starts, consume up to the first unquoted `>` and then lazily up
  to the first occurrence of the closing literal;
* `<[^>]+>` (replaced by one space): at a `<`, consume one or more
  non-`>` characters and a closing `>`.

The scanners recurse on a fuel argument bounded by the input length;
every recursive call strictly consumes input, so fuel `length + 1`
never runs out. -/

/-- Suffix after the first `>` (the `[^>]*>` part of the block regexes);
`none` when no `>` remains. -/
def dropToGt : List Char → Option (List Char)
  | [] => none
  | c :: rest => if c = '>' then some rest else dropToGt rest

/-- Suffix after the first occurrence of `needle` (the lazy
`[\s\S]*?needle` part); `none` when `needle` does not occur. -/
def dropAfterSub (needle : List Char) : List Char → Option (List Char)
  | [] => if needle.isEmpty then some [] else none
  | c :: rest =>
    if listStarts needle (c :: rest) then some ((c :: rest).drop needle.length)
    else dropAfterSub needle rest

/-- `replace_all` for `openTag[^>]*>[\s\S]*?closeTag` with the empty
string, leftmost non-overlapping. -/
def stripBlocksFuel (openTag closeTag : List Char) : Nat → List Char → List Char
  | 0, l => l
  | _ + 1, [] => []
  | fuel + 1, c :: rest =>
    if listStarts openTag (c :: rest) then
      match dropToGt ((c :: rest).drop openTag.length) with
      | some afterGt =>
        match dropAfterSub closeTag afterGt with
        | some tail => stripBlocksFuel openTag closeTag fuel tail
        | none => c :: stripBlocksFuel openTag closeTag fuel rest
      | none => c :: stripBlocksFuel openTag closeTag fuel rest
    else c :: stripBlocksFuel openTag closeTag fuel rest

/-- The `[^>]+>` tail of a tag match: the characters before the first
`>` (possibly none) and the suffix after it. -/
def spanNonGt : List Char → Option (List Char × List Char)
  | [] => none
  | c :: rest =>
    if c = '>' then some ([], rest)
    else (spanNonGt rest).map (fun p => (c :: p.1, p.2))

/-- `replace_all` for `<[^>]+>` with a single space, leftmost
non-overlapping (a `<>` with nothing inside does not match). -/
def stripTagsFuel : Nat → List Char → List Char
  | 0, l => l
  | _ + 1, [] => []
  | fuel + 1, c :: rest =>
    if c = '<' then
      match spanNonGt rest with
      | some (inner, after) =>
        if inner.isEmpty then c :: stripTagsFuel fuel rest
        else ' ' :: stripTagsFuel fuel after
      | none => c :: stripTagsFuel fuel rest
    else c :: stripTagsFuel fuel rest

/-- Rust `str::replace(pat, rep)`: literal (non-regex) replacement of
every non-overlapping occurrence, leftmost first.  Fuel-bounded
structural recursion; each step consumes input, so fuel `length + 1`
never runs out. -/
def replaceFuel (pat rep : List Char) : Nat → List Char → List Char
  | 0, l => l
  | _ + 1, [] => []
  | fuel + 1, c :: rest =>
    if pat.isEmpty then c :: rest
    else if listStarts pat (c :: rest) then
      rep ++ replaceFuel pat rep fuel ((c :: rest).drop pat.length)
    else c :: replaceFuel pat rep fuel rest

/-- String-level literal replace (kernel-reducible counterpart of
`String.replace`). -/
def strReplace (s pat rep : String) : String :=
  ⟨replaceFuel pat.data rep.data (s.data.length + 1) s.data⟩

/-- Rust `str::trim`: strip whitespace at both ends. -/
def strTrim (s : String) : String :=
  ⟨((s.data.dropWhile Char.isWhitespace).reverse.dropWhile Char.isWhitespace).reverse⟩

/-- The body-subregion isolation of `extract_content` (site.rs 82-90):
bounded search for `<body` and `</body>`; absent markers fall back to
the whole document. -/
def bodyContent (html : List Char) : List Char :=
  match findSubIdx "<body".data html with
  | some start =>
    let tail := html.drop start
    match findSubIdx "</body>".data tail with
    | some e => tail.take (e + 7)
    | none => html
  | none => html

/-- The mechanical pre-language-model pipeline of `extract_content`
(site.rs 82-108): body isolation, script/style block removal, tag
removal, the fixed entity replacements, the literal
`.replace(r"\s\x7b2,\x7d", " ")` call (a plain `str::replace`, not a
regex — the pattern occurs verbatim or not at all), and `trim`. -/
def preprocess (page : String) : String :=
  let body := bodyContent page.data
  let h1 := stripBlocksFuel "<script".data "</script>".data (body.length + 1) body
  let h2 := stripBlocksFuel "<style".data "</style>".data (h1.length + 1) h1
  let h3 := stripTagsFuel (h2.length + 1) h2
  strTrim (strReplace (strReplace (strReplace (strReplace (strReplace
    (String.mk h3) "&nbsp;" " ") "&amp;" "&") "&lt;" "<") "&gt;" ">")
    "\\s\x7b2,\x7d" " ")

/-- A parsed `url::Url`, restricted to what `get_site_dir` reads. -/
structure Url where
  host : Option String
  path : String
deriving DecidableEq, Repr

/-- Rust `str::trim_matches('/')`. -/
def trimSlashes (s : String) : String :=
  ⟨((s.data.dropWhile (· = '/')).reverse.dropWhile (· = '/')).reverse⟩

/-- `SiteLoader::get_site_dir` (site.rs 55-59): the cache directory
derived from the URL's host and path under `.sources/sites`. -/
def get_site_dir (u : Url) : String :=
  ".sources/sites" ++ "/" ++ u.host.getD "unknown" ++ "/" ++ trimSlashes u.path

/-- The filesystem state the extractor mutates: created directories and
written files (path, content). -/
structure FsState where
  dirs : List String
  files : List (String × String)
deriving DecidableEq, Repr

/-- First binding of a key in an association list of files. -/
def assocFind (q : String) : List (String × String) → Option String
  | [] => none
  | pc :: rest => if pc.1 = q then some pc.2 else assocFind q rest

/-- Remove every binding of a key. -/
def removeKey (p : String) : List (String × String) → List (String × String)
  | [] => []
  | pc :: rest => if pc.1 = p then removeKey p rest else pc :: removeKey p rest

/-- `fs::write`: create or overwrite. -/
def fsWrite (path content : String) (fs : FsState) : FsState :=
  { fs with files := (path, content) :: removeKey path fs.files }

/-- Content of a file, `none` when absent. -/
def fileLookup (path : String) (fs : FsState) : Option String :=
  assocFind path fs.files

/-- `SiteLoader::extract_content` (site.rs 61-125) with its awaited
effects as explicit inputs: `fetch` is the `reqwest` get + text chain,
`extractor` the language-model extraction on the cleaned text.  The
cache-read short-circuit is commented out in the source and therefore
absent here.  Order of effects: create the directory, fetch, strip,
write `index.html`, extract, write `content.txt`. -/
def extract_content (siteDir : String) (fetch : Except String String)
    (extractor : String → Except String String) (fs0 : FsState) :
    FsState × Except String String :=
  let fs1 : FsState := { fs0 with dirs := siteDir :: fs0.dirs }
  match fetch with
  | .error e => (fs1, .error e)
  | .ok page =>
    let cleaned := preprocess page
    let fs2 := fsWrite (siteDir ++ "/index.html") cleaned fs1
    match extractor cleaned with
    | .error e => (fs2, .error ("Extraction failed: " ++ e))
    | .ok content =>
      (fsWrite (siteDir ++ "/content.txt") content fs2, .ok content)

/-! ## The record schema / storage contract (`knowledge/models.rs`) -/

/-- A stored sqlite value.  sqlite's `CURRENT_TIMESTAMP` default stores
a text rendering of the current time; `timeText` abstracts that
rendering, `parseTimeText` the chrono parse-back. -/
inductive SqlValue where
  | text (s : String)
  | null
deriving DecidableEq, Repr

/-- Abstracted textual rendering of a timestamp column value. -/
def timeText (t : Int) : String := toString t

/-- Parse-back of a timestamp column value. -/
def parseTimeText (s : String) : Option Int := s.toInt?

/-- `rig_sqlite::Column`: name, declared sqlite type, equality index. -/
structure Column where
  name : String
  decl : String
  indexed : Bool
deriving DecidableEq, Repr

/-- `Column::new`. -/
def Column.new (n d : String) : Column := ⟨n, d, false⟩

/-- `Column::indexed` (builder method setting the flag). -/
def Column.withIndex (c : Column) : Column := { c with indexed := true }

/-- Whether a column declaration carries sqlite's current-timestamp
default. -/
def Column.defaultsToNow (c : Column) : Bool :=
  c.decl = "TIMESTAMP DEFAULT CURRENT_TIMESTAMP"

/-- First value bound to `n` in a `column_values` list. -/
def lookupVal (vals : List (String × SqlValue)) (n : String) : Option SqlValue :=
  (vals.find? (fun p => p.1 = n)).map (·.2)

/-- Writing a row: every schema column receives the value
`column_values` supplies for its name, else its declared default
(`CURRENT_TIMESTAMP` at write time `now`, otherwise NULL).  This is the
`INSERT` the store issues from the declared schema and the supplied
column values. -/
def writeRow (schema : List Column) (vals : List (String × SqlValue)) (now : Int) :
    List SqlValue :=
  schema.map (fun c =>
    match lookupVal vals c.name with
    | some v => v
    | none => if c.defaultsToNow then .text (timeText now) else .null)

/-- The `rusqlite::Error` cases the decoders produce. -/
inductive RowError where
  | invalidColumnIndex (i : Nat)
  | invalidColumnType (i : Nat)
  | fromSqlConversionFailure (i : Nat) (msg : String)
deriving DecidableEq, Repr

/-- `row.get(i)` at the raw-value level. -/
def rowGet (row : List SqlValue) (i : Nat) : Except RowError SqlValue :=
  match row[i]? with
  | some v => .ok v
  | none => .error (.invalidColumnIndex i)

/-- `row.get::<_, String>(i)`. -/
def getText (row : List SqlValue) (i : Nat) : Except RowError String :=
  match rowGet row i with
  | .error e => .error e
  | .ok (.text s) => .ok s
  | .ok .null => .error (.invalidColumnType i)

/-- `row.get::<_, Option<DateTime<Utc>>>(i)`. -/
def getOptTime (row : List SqlValue) (i : Nat) : Except RowError (Option Int) :=
  match rowGet row i with
  | .error e => .error e
  | .ok .null => .ok none
  | .ok (.text s) =>
    match parseTimeText s with
    | some t => .ok (some t)
    | none => .error (.invalidColumnType i)

/-- Modelled from the spec: `knowledge/types.rs` (the `Source`
enumeration) is not under src/.  Per the spec it is a closed
enumeration with canonical string encode/decode and a fallible parse
(an unrecognized string is an error, never a default variant); the
variant set is modelled as a representative closed set. -/
inductive Source where
  | discord
  | telegram
  | github
deriving DecidableEq, Repr

/-- Modelled from the spec: canonical string form of a `Source`. -/
def Source.as_str : Source → String
  | .discord => "discord"
  | .telegram => "telegram"
  | .github => "github"

/-- Modelled from the spec: fallible canonical decode of a `Source`. -/
def Source.from_str (s : String) : Except String Source :=
  if s = "discord" then .ok .discord
  else if s = "telegram" then .ok .telegram
  else if s = "github" then .ok .github
  else .error "unknown source variant"

/-- Modelled from the spec: `knowledge/types.rs` (the `ChannelType`
enumeration) is not under src/; same closed-enumeration contract as
`Source`. -/
inductive ChannelType where
  | text
  | direct
  | voice
deriving DecidableEq, Repr

/-- Modelled from the spec: canonical string form of a `ChannelType`. -/
def ChannelType.as_str : ChannelType → String
  | .text => "text"
  | .direct => "direct"
  | .voice => "voice"

/-- Modelled from the spec: fallible canonical decode of a
`ChannelType`. -/
def ChannelType.from_str (s : String) : Except String ChannelType :=
  if s = "text" then .ok .text
  else if s = "direct" then .ok .direct
  else if s = "voice" then .ok .voice
  else .error "unknown channel type variant"

/-- `knowledge/models.rs` 40-53. -/
structure Message where
  id : String
  source : Source
  source_id : String
  channel_type : ChannelType
  channel_id : String
  account_id : String
  role : String
  content : String
  created_at : Option Int
deriving DecidableEq, Repr

/-- `Message` schema (models.rs 121-133). -/
def Message.schema : List Column :=
  [Column.new "id" "TEXT PRIMARY KEY",
   Column.new "source" "TEXT",
   (Column.new "source_id" "TEXT").withIndex,
   Column.new "channel_type" "TEXT",
   (Column.new "channel_id" "TEXT").withIndex,
   (Column.new "account_id" "TEXT").withIndex,
   Column.new "role" "TEXT",
   Column.new "content" "TEXT",
   Column.new "created_at" "TIMESTAMP DEFAULT CURRENT_TIMESTAMP"]

/-- `Message::column_values` (models.rs 139-153): enumeration fields are
persisted through `as_str`; `created_at` is not supplied. -/
def Message.column_values (m : Message) : List (String × SqlValue) :=
  [("id", .text m.id),
   ("source", .text m.source.as_str),
   ("source_id", .text m.source_id),
   ("channel_type", .text m.channel_type.as_str),
   ("channel_id", .text m.channel_id),
   ("account_id", .text m.account_id),
   ("role", .text m.role),
   ("content", .text m.content)]

/-- `TryFrom<&Row> for Message` (models.rs 211-241): positional reads;
an enumeration string matching no variant becomes an explicit
`FromSqlConversionFailure`. -/
def Message.tryFromRow (row : List SqlValue) : Except RowError Message :=
  match getText row 0 with
  | .error e => .error e
  | .ok id =>
    match getText row 1 with
    | .error e => .error e
    | .ok srcS =>
      match Source.from_str srcS with
      | .error _ => .error (.fromSqlConversionFailure 1 "Invalid source")
      | .ok source =>
        match getText row 2 with
        | .error e => .error e
        | .ok source_id =>
          match getText row 3 with
          | .error e => .error e
          | .ok ctS =>
            match ChannelType.from_str ctS with
            | .error _ => .error (.fromSqlConversionFailure 3 "Invalid channel type")
            | .ok channel_type =>
              match getText row 4 with
              | .error e => .error e
              | .ok channel_id =>
                match getText row 5 with
                | .error e => .error e
                | .ok account_id =>
                  match getText row 6 with
                  | .error e => .error e
                  | .ok role =>
                    match getText row 7 with
                    | .error e => .error e
                    | .ok content =>
                      match getOptTime row 8 with
                      | .error e => .error e
                      | .ok created_at => .ok
                          { id, source, source_id, channel_type,
                            channel_id, account_id, role, content, created_at }

/-- `knowledge/models.rs` 67-76: in `Channel` the enumeration-like
fields are plain strings. -/
structure Channel where
  id : String
  channel_id : String
  channel_type : String
  source : String
  name : String
  created_at : Option Int
  updated_at : Option Int
deriving DecidableEq, Repr

/-- `Channel` schema (models.rs 264-272): five columns — no
`channel_id` or `channel_type` column is declared. -/
def Channel.schema : List Column :=
  [Column.new "id" "TEXT PRIMARY KEY",
   Column.new "name" "TEXT",
   Column.new "source" "TEXT",
   Column.new "created_at" "TIMESTAMP DEFAULT CURRENT_TIMESTAMP",
   Column.new "updated_at" "TIMESTAMP DEFAULT CURRENT_TIMESTAMP"]

/-- `Channel::column_values` (models.rs 278-285): only `id`, `name`,
`source` are supplied. -/
def Channel.column_values (c : Channel) : List (String × SqlValue) :=
  [("id", .text c.id),
   ("name", .text c.name),
   ("source", .text c.source)]

/-- `TryFrom<&Row> for Channel` (models.rs 243-257): positional reads of
seven columns `(id, channel_id, channel_type, source, name,
created_at, updated_at)`. -/
def Channel.tryFromRow (row : List SqlValue) : Except RowError Channel :=
  match getText row 0 with
  | .error e => .error e
  | .ok id =>
    match getText row 1 with
    | .error e => .error e
    | .ok channel_id =>
      match getText row 2 with
      | .error e => .error e
      | .ok channel_type =>
        match getText row 3 with
        | .error e => .error e
        | .ok source =>
          match getText row 4 with
          | .error e => .error e
          | .ok name =>
            match getOptTime row 5 with
            | .error e => .error e
            | .ok created_at =>
              match getOptTime row 6 with
              | .error e => .error e
              | .ok updated_at => .ok
                  { id, channel_id, channel_type, source, name,
                    created_at, updated_at }

/-! ## Concrete scenario values

Timestamps are Unix seconds; `since2024` is 2024-01-01T00:00:00Z. -/

def since2024 : Int := 1704067200

/-- Pull request #42 of `acme/widget`, updated after the watermark. -/
def exPull42 : PullData :=
  { number := 42, title := some "Add widget support", user_login := some "alice",
    state := some "Open", html_url := some "https://github.com/acme/widget/pull/42",
    created_at := some 1704100000, updated_at := some 1704153600,
    body := some "Implements the widget." }

/-- The `widget` repository of organization `acme`. -/
def exRepoWidget : RepoData :=
  { name := "widget", full_name := some "acme/widget",
    description := some "A widget", html_url := some "https://github.com/acme/widget",
    created_at := some 1700000000, updated_at := some 1704153600 }

/-- An ordinary issue updated after the watermark, no pull-request
linkage. -/
def exIssue7 : IssueData :=
  { number := 7, title := "Crash on empty input", user_login := "bob",
    state := "Open", html_url := "https://github.com/acme/widget/issues/7",
    created_at := 1704070000, updated_at := 1704080000,
    body := some "Stack trace attached.", pull_request := none }

/-- An issues-endpoint entity that is really a pull request (carries the
linkage marker). -/
def exIssuePR : IssueData :=
  { number := 8, title := "Add widget support", user_login := "alice",
    state := "Open", html_url := "https://github.com/acme/widget/pull/8",
    created_at := 1704070000, updated_at := 1704090000,
    body := none, pull_request := some () }

/-- The end-to-end scenario: organization `acme` with one repository
`widget`, one qualifying pull request, no qualifying issues or
commits. -/
def exWorld : World :=
  { repos := .ok [exRepoWidget],
    pulls := fun o r => if o = "acme" && r = "widget" then .ok [exPull42] else .ok [],
    issues := fun _ _ => .ok [],
    commits := fun _ _ _ => .ok [] }

/-- What `fetch_org_activity` produces on `exWorld`. -/
def exActivityDocs : List Document :=
  [mkRepoDoc "acme" exRepoWidget, mkPullDoc "acme" "widget" exPull42]

/-- A repository whose resolved qualified name has no slash. -/
def badRepo : RepoData :=
  { name := "widget", full_name := none, description := none,
    html_url := none, created_at := none, updated_at := none }

/-- An organization listing containing `badRepo`. -/
def badWorld : World :=
  { repos := .ok [badRepo],
    pulls := fun _ _ => .ok [],
    issues := fun _ _ => .ok [],
    commits := fun _ _ _ => .ok [] }

/-! ## C1 — the end-to-end GitHub example -/

/-- C1 counterexample: on the scenario of the claim (`acme`/`widget`,
one pull request #42 past the watermark, nothing else) the
organization sync does produce two records, but none has id
`github:pr:acme:acme/widget/42`, and the pull-request record's
`source_id` is `github:acme/widget`, not `github:acme`. -/
theorem github_e2e_claim_cex :
    fetch_org_activity "acme" since2024 exWorld = Except.ok exActivityDocs ∧
    ¬ ((exActivityDocs.countP (fun d => d.id == "github:pr:acme:acme/widget/42") = 1) ∧
       ∀ d ∈ exActivityDocs, d.source_id = "github:acme") :=
  ⟨rfl, by decide⟩

/-- C1 amended: on that scenario `fetch_org_activity` returns exactly
one record with id `github:repo:acme/widget` and one with id
`github:pr:acme:widget/42`, zero issue/commit records; the repository
record has `source_id = github:acme` while the pull-request record has
`source_id = github:acme/widget`. -/
theorem github_e2e_amended :
    fetch_org_activity "acme" since2024 exWorld = Except.ok exActivityDocs ∧
    exActivityDocs.countP (fun d => d.id == "github:repo:acme/widget") = 1 ∧
    exActivityDocs.countP (fun d => d.id == "github:pr:acme:widget/42") = 1 ∧
    exActivityDocs.countP (fun d =>
      listStarts "github:issue:".data d.id.data ||
      listStarts "github:commit:".data d.id.data) = 0 ∧
    exActivityDocs.map (fun d => d.source_id) = ["github:acme", "github:acme/widget"] :=
  ⟨rfl, by decide, by decide, by decide, by decide⟩

/-! ## C2 — record id formats -/

/-- C2 counterexample: the pull-request fetch over `(acme, widget)`
gives record id `github:pr:acme:widget/42`, not the claimed
`github:pr:acme:acme/widget/42`. -/
theorem record_id_claim_cex :
    fetch_repo_pulls "acme" "widget" since2024 (Except.ok [exPull42]) =
      Except.ok [mkPullDoc "acme" "widget" exPull42] ∧
    (mkPullDoc "acme" "widget" exPull42).id = "github:pr:acme:widget/42" ∧
    (mkPullDoc "acme" "widget" exPull42).id ≠ "github:pr:acme:acme/widget/42" :=
  ⟨rfl, rfl, by decide⟩

/-- C2 amended: every record of the pull-request fetch has id
`github:pr:<owner>:<repo>/<number>` and every record of the issue
fetch has id `github:issue:<owner>:<repo>/<number>` (a single
occurrence of the owner, before the second colon). -/
theorem record_id_format (owner repo : String) (since : Int)
    (presp : List PullData) (iresp : List IssueData) (pdocs idocs : List Document)
    (hp : fetch_repo_pulls owner repo since (.ok presp) = .ok pdocs)
    (hi : fetch_repo_issues owner repo since (.ok iresp) = .ok idocs) :
    (∀ d ∈ pdocs, ∃ n : Nat,
      d.id = "github:pr:" ++ owner ++ ":" ++ repo ++ "/" ++ toString n) ∧
    (∀ d ∈ idocs, ∃ n : Nat,
      d.id = "github:issue:" ++ owner ++ ":" ++ repo ++ "/" ++ toString n) := by
  simp only [fetch_repo_pulls, Except.ok.injEq] at hp
  simp only [fetch_repo_issues, Except.ok.injEq] at hi
  constructor
  · intro d hd
    rw [← hp] at hd
    rcases List.mem_map.1 hd with ⟨p, _, rfl⟩
    exact ⟨p.number, rfl⟩
  · intro d hd
    rw [← hi] at hd
    rcases List.mem_map.1 hd with ⟨i, _, rfl⟩
    exact ⟨i.number, rfl⟩

/-- C2 witness: the amended id format at the concrete scenario. -/
theorem record_id_format_witness :
    (∀ d ∈ [mkPullDoc "acme" "widget" exPull42], ∃ n : Nat,
      d.id = "github:pr:" ++ "acme" ++ ":" ++ "widget" ++ "/" ++ toString n) ∧
    (∀ d ∈ [mkIssueDoc "acme" "widget" exIssue7], ∃ n : Nat,
      d.id = "github:issue:" ++ "acme" ++ ":" ++ "widget" ++ "/" ++ toString n) :=
  record_id_format "acme" "widget" since2024 [exPull42] [exIssue7, exIssuePR]
    [mkPullDoc "acme" "widget" exPull42] [mkIssueDoc "acme" "widget" exIssue7] rfl rfl

/-! ## C3 — watermark correctness -/

/-- C3: every record of the pull-request fetch comes from an entity
whose update time is at least `since`, and every record of the issue
fetch comes from an entity with update time at least `since` and no
pull-request linkage marker. -/
theorem watermark_correctness (owner repo : String) (since : Int)
    (presp : List PullData) (iresp : List IssueData) (pdocs idocs : List Document)
    (hp : fetch_repo_pulls owner repo since (.ok presp) = .ok pdocs)
    (hi : fetch_repo_issues owner repo since (.ok iresp) = .ok idocs) :
    (∀ d ∈ pdocs, ∃ p ∈ presp, d = mkPullDoc owner repo p ∧
      ∃ t, p.updated_at = some t ∧ since ≤ t) ∧
    (∀ d ∈ idocs, ∃ i ∈ iresp, d = mkIssueDoc owner repo i ∧
      since ≤ i.updated_at ∧ i.pull_request = none) := by
  simp only [fetch_repo_pulls, Except.ok.injEq] at hp
  simp only [fetch_repo_issues, Except.ok.injEq] at hi
  constructor
  · intro d hd
    rw [← hp] at hd
    rcases List.mem_map.1 hd with ⟨p, hpmem, rfl⟩
    rcases List.mem_filter.1 hpmem with ⟨hpin, hkeep⟩
    refine ⟨p, hpin, rfl, ?_⟩
    cases hu : p.updated_at with
    | none => simp [pullKeep, hu] at hkeep
    | some t =>
      refine ⟨t, rfl, ?_⟩
      simpa [pullKeep, hu] using hkeep
  · intro d hd
    rw [← hi] at hd
    rcases List.mem_map.1 hd with ⟨i, himem, rfl⟩
    rcases List.mem_filter.1 himem with ⟨hiin, hkeep⟩
    rw [issueKeep, Bool.and_eq_true, decide_eq_true_eq, Option.isNone_iff_eq_none] at hkeep
    exact ⟨i, hiin, rfl, hkeep.1, hkeep.2⟩

/-- C3 witness: watermark correctness at the concrete scenario (the
issue response also contains a linked pull request, which is
excluded). -/
theorem watermark_correctness_witness :
    (∀ d ∈ [mkPullDoc "acme" "widget" exPull42], ∃ p ∈ [exPull42],
      d = mkPullDoc "acme" "widget" p ∧
      ∃ t, p.updated_at = some t ∧ since2024 ≤ t) ∧
    (∀ d ∈ [mkIssueDoc "acme" "widget" exIssue7], ∃ i ∈ [exIssue7, exIssuePR],
      d = mkIssueDoc "acme" "widget" i ∧
      since2024 ≤ i.updated_at ∧ i.pull_request = none) :=
  watermark_correctness "acme" "widget" since2024 [exPull42] [exIssue7, exIssuePR]
    [mkPullDoc "acme" "widget" exPull42] [mkIssueDoc "acme" "widget" exIssue7] rfl rfl

/-! ## C4 — storage round-trip -/

/-- C4: the `Channel` round-trip can never succeed.  `column_values`
supplies three columns under the five-column declared schema, while
the row decoder reads seven positions `(id, channel_id, channel_type,
source, name, created_at, updated_at)`: reading the written row
misassigns `name`/`source` into `channel_id`/`channel_type` and then
fails at column index 5, which does not exist.  So writing any channel
and reading it back yields an error, never a value equal to the
original. -/
theorem channel_roundtrip_fails (c : Channel) (now : Int) :
    Channel.tryFromRow (writeRow Channel.schema (Channel.column_values c) now) =
      Except.error (RowError.invalidColumnIndex 5) := rfl

/-! ## C5 — the mechanical markup-stripping pipeline -/

/-- C5: two divergences of the pre-language-model text from the claim.
The whitespace-collapse step is a literal `str::replace` of the
thirteen characters of the pattern text, so the doubled space in
`<body>a  b</body>` survives; and `&lt;`/`&gt;` decode to `<`/`>`, so
the intermediate text does contain angle brackets whenever the page
contains those entities (script/style content and real tags are
removed, and `&amp;` does decode to `&`). -/
theorem site_strip_divergence :
    preprocess "<body>a  b</body>" = "a  b" ∧
    preprocess "<body>x &lt;tag&gt; y<script>var z = 1;</script></body>" = "x <tag> y" ∧
    preprocess "<body>Tom &amp; Jerry<style>p: red</style></body>" = "Tom & Jerry" :=
  ⟨rfl, rfl, rfl⟩

/-! ## C8 — closed-enumeration persistence for `Message` -/

/-- A persisted `Message` row whose `source` column holds a string that
is no known variant. -/
def badSourceRow : List SqlValue :=
  [.text "m-1", .text "carrier-pigeon", .text "discord:123", .text "text",
   .text "ch-1", .text "acc-1", .text "user", .text "hello", .null]

/-- A persisted `Message` row whose `channel_type` column holds a string
that is no known variant. -/
def badChannelTypeRow : List SqlValue :=
  [.text "m-1", .text "discord", .text "discord:123", .text "smoke-signal",
   .text "ch-1", .text "acc-1", .text "user", .text "hello", .null]

/-- C8: `Message::column_values` persists the enumeration fields through
their canonical string form, and decoding any persisted row whose
`source` (resp. `channel_type`) string matches no known variant fails
with an explicit conversion error naming the column — it never falls
back to a default variant. -/
theorem message_enum_contract :
    (∀ m : Message,
      lookupVal m.column_values "source" = some (.text m.source.as_str) ∧
      lookupVal m.column_values "channel_type" = some (.text m.channel_type.as_str)) ∧
    (∀ (row : List SqlValue) (i s : String),
      getText row 0 = .ok i →
      getText row 1 = .ok s →
      (∀ v : Source, s ≠ v.as_str) →
      Message.tryFromRow row =
        Except.error (RowError.fromSqlConversionFailure 1 "Invalid source")) ∧
    (∀ (row : List SqlValue) (i s sid ct : String) (v : Source),
      getText row 0 = .ok i →
      getText row 1 = .ok s →
      Source.from_str s = .ok v →
      getText row 2 = .ok sid →
      getText row 3 = .ok ct →
      (∀ w : ChannelType, ct ≠ w.as_str) →
      Message.tryFromRow row =
        Except.error (RowError.fromSqlConversionFailure 3 "Invalid channel type")) := by
  refine ⟨fun _ => ⟨rfl, rfl⟩, ?_, ?_⟩
  · intro row i s h0 h1 hs
    have hd := hs Source.discord
    have ht := hs Source.telegram
    have hg := hs Source.github
    simp only [Source.as_str] at hd ht hg
    have hfs : Source.from_str s = .error "unknown source variant" := by
      simp [Source.from_str, hd, ht, hg]
    simp only [Message.tryFromRow, h0, h1, hfs]
  · intro row i s sid ct v h0 h1 hv h2 h3 hct
    have ha := hct ChannelType.text
    have hb := hct ChannelType.direct
    have hc := hct ChannelType.voice
    simp only [ChannelType.as_str] at ha hb hc
    have hfc : ChannelType.from_str ct = .error "unknown channel type variant" := by
      simp [ChannelType.from_str, ha, hb, hc]
    simp only [Message.tryFromRow, h0, h1, hv, h2, h3, hfc]

/-- C8 witness: the universal decode-failure conjuncts at the two
concrete rows holding the unknown strings `carrier-pigeon` and
`smoke-signal`. -/
theorem message_enum_contract_witness :
    Message.tryFromRow badSourceRow =
      Except.error (RowError.fromSqlConversionFailure 1 "Invalid source") ∧
    Message.tryFromRow badChannelTypeRow =
      Except.error (RowError.fromSqlConversionFailure 3 "Invalid channel type") :=
  ⟨message_enum_contract.2.1 badSourceRow "m-1" "carrier-pigeon" rfl rfl
      (fun v => by cases v <;> decide),
   message_enum_contract.2.2 badChannelTypeRow "m-1" "discord" "discord:123"
      "smoke-signal" Source.discord rfl rfl rfl rfl rfl
      (fun w => by cases w <;> decide)⟩

/-! ## C6 — dispatcher robustness -/

/-- Concrete fetchers for witnesses: the github clone yields one file,
the site chain fails. -/
def exFetchers : Fetchers :=
  { github := fun u => if u = "orgX" then .ok [("README.md", "hello")] else .ok [],
    site := fun _ => .error "network unreachable",
    file := fun _ => .ok [] }

/-- C6: on `["bogus", "github:orgX", "nope:1"]` the dispatcher succeeds,
the colonless and unrecognized entries contribute zero records and no
error, and every returned record has `source_id = github:orgX`. -/
theorem dispatcher_robustness (f : Fetchers) (l : List (String × String))
    (h : f.github "orgX" = .ok l) :
    load_sources f ["bogus", "github:orgX", "nope:1"] =
      Except.ok (l.map fun pc =>
        ({ id := pc.1, source_id := "github:orgX", content := pc.2,
           created_at := none, metadata := some (.dispatch "github" "orgX") } : Document)) ∧
    ∀ d ∈ (l.map fun pc =>
        ({ id := pc.1, source_id := "github:orgX", content := pc.2,
           created_at := none, metadata := some (.dispatch "github" "orgX") } : Document)),
      d.source_id = "github:orgX" := by
  constructor
  · show (match fetchOne f "github" "orgX" with
          | Except.error e => Except.error e
          | Except.ok docs =>
            match load_sources f ["nope:1"] with
            | Except.error e => Except.error e
            | Except.ok ds => Except.ok (docs ++ ds)) = _
    simp [fetchOne, h]
    rw [show load_sources f ["nope:1"] = Except.ok [] from rfl]
    simp
  · intro d hd
    rcases List.mem_map.1 hd with ⟨pc, _, rfl⟩
    rfl

/-- C6 witness: the dispatcher run with the concrete fetchers. -/
theorem dispatcher_robustness_witness :
    load_sources exFetchers ["bogus", "github:orgX", "nope:1"] =
      Except.ok ([("README.md", "hello")].map fun pc =>
        ({ id := pc.1, source_id := "github:orgX", content := pc.2,
           created_at := none, metadata := some (.dispatch "github" "orgX") } : Document)) ∧
    ∀ d ∈ ([("README.md", "hello")].map fun pc =>
        ({ id := pc.1, source_id := "github:orgX", content := pc.2,
           created_at := none, metadata := some (.dispatch "github" "orgX") } : Document)),
      d.source_id = "github:orgX" :=
  dispatcher_robustness exFetchers [("README.md", "hello")] rfl

/-! ## C7 — a fetcher failure aborts the whole batch -/

/-- Dispatching a concatenation: the second half runs only when the
first succeeds, and results concatenate. -/
theorem load_sources_append (f : Fetchers) (xs ys : List String) :
    load_sources f (xs ++ ys) =
      match load_sources f xs with
      | .error e => .error e
      | .ok ds =>
        match load_sources f ys with
        | .error e => .error e
        | .ok es => .ok (ds ++ es) := by
  induction xs with
  | nil =>
    cases hys : load_sources f ys <;> simp [load_sources, hys]
  | cons s xs ih =>
    show load_sources f (s :: (xs ++ ys)) = _
    rw [load_sources]
    rw [load_sources]
    cases hsp : splitOnceChar ':' s with
    | none => exact ih
    | some p =>
      obtain ⟨ty, url⟩ := p
      by_cases hk : knownType ty
      · simp only [hk, if_true]
        cases hf : fetchOne f ty url with
        | error e => rfl
        | ok docs =>
          rw [ih]
          cases h1 : load_sources f xs with
          | error e => rfl
          | ok ds =>
            cases h2 : load_sources f ys with
            | error e => rfl
            | ok es => simp [List.append_assoc]
      · simp only [hk, if_false]
        exact ih

/-- C7: when every source before it succeeded, a failing site source at
the end of the list makes `load_sources` fail as a whole, yielding no
records — including none from the sources that had already
succeeded. -/
theorem fetcher_failure_aborts (f : Fetchers) (xs : List String) (ds : List Document)
    (u e : String) (h1 : load_sources f xs = .ok ds) (h2 : f.site u = .error e) :
    load_sources f (xs ++ ["site:" ++ u]) = .error e := by
  rw [load_sources_append, h1]
  have hone : load_sources f [("site:" ++ u)] = .error e := by
    rw [load_sources]
    rw [show splitOnceChar ':' ("site:" ++ u) = some ("site", u) from rfl]
    show (match fetchOne f "site" u with
          | Except.error e => Except.error e
          | Except.ok docs =>
            match load_sources f [] with
            | Except.error e => Except.error e
            | Except.ok ds => Except.ok (docs ++ ds)) = Except.error e
    simp [fetchOne, h2]
  rw [hone]

/-- C7 witness: a successful github source followed by a failing site
source yields the site error and no records. -/
theorem fetcher_failure_aborts_witness :
    load_sources exFetchers (["github:orgX"] ++ ["site:" ++ "https://x.example"]) =
      Except.error "network unreachable" :=
  fetcher_failure_aborts exFetchers ["github:orgX"]
    [{ id := "README.md", source_id := "github:orgX", content := "hello",
       created_at := none, metadata := some (.dispatch "github" "orgX") }]
    "https://x.example" "network unreachable" rfl rfl

/-! ## C9 — unsplittable repository names are fatal to the run -/

/-- If the per-repository step of the organization sync cannot succeed
for some member of the document list, the whole loop cannot return
`ok`. -/
theorem orgLoop_not_ok (w : World) (since : Int) :
    ∀ (docs : List Document) (d : Document), d ∈ docs →
      (∀ xs, orgActivityStep w since d ≠ .ok xs) →
      ∀ ds, orgActivityLoop w since docs ≠ .ok ds := by
  intro docs
  induction docs with
  | nil => intro d hd; cases hd
  | cons a rest ih =>
    intro d hd hstep ds hok
    rw [orgActivityLoop] at hok
    cases hsa : orgActivityStep w since a with
    | error e => rw [hsa] at hok; simp at hok
    | ok xs =>
      rw [hsa] at hok
      cases hd with
      | head => exact hstep xs hsa
      | tail _ hmem =>
        cases hloop : orgActivityLoop w since rest with
        | error e => rw [hloop] at hok; simp at hok
        | ok ys => exact ih d hmem hstep ys hloop

/-- C9: if the organization listing contains a repository whose
resolved qualified name has no slash, `fetch_org_activity` produces no
successful aggregate result — the repository is not skipped, the whole
run fails. -/
theorem org_sync_unsplittable_fatal (org : String) (since : Int) (w : World)
    (repos : List RepoData) (hw : w.repos = .ok repos)
    (r : RepoData) (hr : r ∈ repos)
    (hbad : splitOnceChar '/' (repoName r) = none) :
    ∀ ds, fetch_org_activity org since w ≠ .ok ds := by
  intro ds hok
  simp only [fetch_org_activity, fetch_org_repos, hw] at hok
  have hdoc : mkRepoDoc org r ∈ repos.map (mkRepoDoc org) := List.mem_map_of_mem _ hr
  have hmeta : (mkRepoDoc org r).metadata = some (.repo r) := rfl
  have hstep : ∀ xs, orgActivityStep w since (mkRepoDoc org r) ≠ .ok xs := by
    intro xs hx
    simp only [orgActivityStep, hmeta, fromValueRepo, hbad] at hx
    exact Except.noConfusion hx
  cases hloop : orgActivityLoop w since (repos.map (mkRepoDoc org)) with
  | error e => rw [hloop] at hok; simp at hok
  | ok more => exact orgLoop_not_ok w since _ _ hdoc hstep more hloop

/-- C9 witness: an organization whose only repository resolves to the
slashless name `widget` makes the whole sync fail. -/
theorem org_sync_unsplittable_fatal_witness :
    fetch_org_activity "acme" since2024 badWorld ≠ Except.ok [] :=
  org_sync_unsplittable_fatal "acme" since2024 badWorld [badRepo] rfl badRepo
    (List.mem_singleton.2 rfl) rfl []

/-! ## C10 — the failed extraction leaves the intermediate cache write -/

/-- Looking up one key is unaffected by removing another key. -/
theorem assocFind_removeKey (p q : String) (hne : q ≠ p) :
    ∀ l : List (String × String), assocFind q (removeKey p l) = assocFind q l := by
  intro l
  induction l with
  | nil => rfl
  | cons a rest ih =>
    by_cases hap : a.1 = p
    · have hpq : ¬(p = q) := fun h => hne h.symm
      simp [removeKey, assocFind, hap, hpq, ih]
    · simp [removeKey, assocFind, hap, ih]

/-- Looking up the path just written yields the written content. -/
theorem fileLookup_write_self (p c : String) (fs : FsState) :
    fileLookup p (fsWrite p c fs) = some c := by
  simp [fileLookup, fsWrite, assocFind]

/-- Looking up a different path is unaffected by a write. -/
theorem fileLookup_write_other (p q c : String) (fs : FsState) (hne : q ≠ p) :
    fileLookup q (fsWrite p c fs) = fileLookup q fs := by
  simp only [fileLookup, fsWrite, assocFind]
  rw [if_neg (Ne.symm hne), assocFind_removeKey p q hne fs.files]

/-- The two cache artifact paths under one site directory differ. -/
theorem cache_paths_ne (d : String) : (d ++ "/content.txt") ≠ (d ++ "/index.html") := by
  intro h
  have hlen := congrArg (fun s => s.data.length) h
  simp [data_append] at hlen

/-- C10: when the language-model extraction fails, `extract_content`
returns an error, yet the URL-derived cache directory has been created
and the post-strip intermediate text has been written to `index.html`,
while `content.txt` is not written: the intermediate cache write
persists across the error. -/
theorem extract_content_not_atomic (u : Url) (page : String)
    (ext : String → Except String String) (e : String) (fs0 : FsState)
    (hext : ext (preprocess page) = .error e)
    (hclean : fileLookup (get_site_dir u ++ "/content.txt") fs0 = none) :
    (extract_content (get_site_dir u) (.ok page) ext fs0).2 =
      .error ("Extraction failed: " ++ e) ∧
    fileLookup (get_site_dir u ++ "/index.html")
      (extract_content (get_site_dir u) (.ok page) ext fs0).1 = some (preprocess page) ∧
    fileLookup (get_site_dir u ++ "/content.txt")
      (extract_content (get_site_dir u) (.ok page) ext fs0).1 = none ∧
    get_site_dir u ∈ (extract_content (get_site_dir u) (.ok page) ext fs0).1.dirs := by
  have hr : extract_content (get_site_dir u) (.ok page) ext fs0 =
      (fsWrite (get_site_dir u ++ "/index.html") (preprocess page)
        { fs0 with dirs := get_site_dir u :: fs0.dirs },
       .error ("Extraction failed: " ++ e)) := by
    simp only [extract_content, hext]
  rw [hr]
  refine ⟨rfl, fileLookup_write_self _ _ _, ?_, ?_⟩
  · rw [fileLookup_write_other _ _ _ _ (cache_paths_ne _)]
    exact hclean
  · exact List.mem_cons_self _ _

/-- The URL of the C10 witness. -/
def exUrl : Url := { host := some "example.com", path := "/articles/widgets/" }

/-- C10 witness: a concrete failed extraction, starting from an empty
filesystem. -/
theorem extract_content_not_atomic_witness :
    (extract_content (get_site_dir exUrl) (.ok "<body>hi</body>")
      (fun _ => .error "model unavailable") ⟨[], []⟩).2 =
      .error ("Extraction failed: " ++ "model unavailable") ∧
    fileLookup (get_site_dir exUrl ++ "/index.html")
      (extract_content (get_site_dir exUrl) (.ok "<body>hi</body>")
        (fun _ => .error "model unavailable") ⟨[], []⟩).1 =
      some (preprocess "<body>hi</body>") ∧
    fileLookup (get_site_dir exUrl ++ "/content.txt")
      (extract_content (get_site_dir exUrl) (.ok "<body>hi</body>")
        (fun _ => .error "model unavailable") ⟨[], []⟩).1 = none ∧
    get_site_dir exUrl ∈ (extract_content (get_site_dir exUrl) (.ok "<body>hi</body>")
      (fun _ => .error "model unavailable") ⟨[], []⟩).1.dirs :=
  extract_content_not_atomic exUrl "<body>hi</body>"
    (fun _ => .error "model unavailable") "model unavailable" ⟨[], []⟩ rfl rfl
